import Mathlib

/-!
Shallow embedding of `src/rust/vectordb/src/index/vector.rs`: the
`IvfPQIndexBuilder` configuration builder and the `VectorIndexBuilder`
trait implementation, together with the external lance-crate record types
it manipulates (modelled from the spec, since the lance crate is an
external collaborator of this repository).
-/

namespace VectorDB

/-- Modelled from the spec: the distance-metric enum of the external lance
crate, `{Euclidean, Cosine, Dot, ...}` (Euclidean is lance's L2). -/
inductive MetricType where
  | l2
  | cosine
  | dot
  deriving DecidableEq

/-- Modelled from the spec: the IVF-stage configuration record of the
external lance crate (partition count, training iteration cap). -/
structure IvfBuildParams where
  num_partitions : Nat
  max_iters : Nat
  deriving DecidableEq

/-- Modelled from the spec: the IVF default record supplied by the external
default-provider (`IvfBuildParams::default()` in lance). -/
def IvfBuildParams.default : IvfBuildParams :=
  { num_partitions := 32, max_iters := 50 }

/-- Modelled from the spec: `IvfBuildParams::new(num_partitions)` of the
external lance crate: the given partition count, defaults elsewhere. -/
def IvfBuildParams.new (num_partitions : Nat) : IvfBuildParams :=
  { num_partitions := num_partitions,
    max_iters := IvfBuildParams.default.max_iters }

/-- Modelled from the spec: the PQ-stage configuration record of the
external lance crate (sub-vector count, bit width, optimized-PQ flag and
iteration caps, metric type). -/
structure PQBuildParams where
  num_sub_vectors : Nat
  num_bits : Nat
  use_opq : Bool
  metric_type : MetricType
  max_iters : Nat
  max_opq_iters : Nat
  deriving DecidableEq

/-- Modelled from the spec: the PQ default record supplied by the external
default-provider (`PQBuildParams::default()` in lance); in particular its
optimized-PQ flag is false. -/
def PQBuildParams.default : PQBuildParams :=
  { num_sub_vectors := 16, num_bits := 8, use_opq := false,
    metric_type := MetricType.l2, max_iters := 50, max_opq_iters := 50 }

/-- Modelled from the spec: a pipeline stage descriptor of the external
lance crate, tagged by kind (IVF or PQ). -/
inductive StageParams where
  | Ivf (p : IvfBuildParams)
  | PQ (p : PQBuildParams)
  deriving DecidableEq

/-- Modelled from the spec: the resolved parameter bundle of the external
lance crate: an overall metric type plus the ordered stage list. -/
structure VectorIndexParams where
  metric_type : MetricType
  stages : List StageParams
  deriving DecidableEq

/-- Modelled from the spec: `VectorIndexParams::with_ivf_pq_params` of the
external lance crate: builds the two-stage pipeline, IVF then PQ, carrying
the given overall metric type. -/
def VectorIndexParams.with_ivf_pq_params (metric_type : MetricType)
    (ivf : IvfBuildParams) (pq : PQBuildParams) : VectorIndexParams :=
  { metric_type := metric_type, stages := [StageParams.Ivf ivf, StageParams.PQ pq] }

/-- The `IvfPQIndexBuilder` struct of `vector.rs`. -/
structure IvfPQIndexBuilder where
  column : Option String
  index_name : Option String
  metric_type : Option MetricType
  ivf_params : Option IvfBuildParams
  pq_params : Option PQBuildParams
  replace : Bool
  deriving DecidableEq

namespace IvfPQIndexBuilder

/-- `IvfPQIndexBuilder::new()`: all optional fields absent, replace true. -/
def new : IvfPQIndexBuilder :=
  { column := none, index_name := none, metric_type := none,
    ivf_params := none, pq_params := none, replace := true }

/-- The `column` setter (named `set_column` here because the fluent Rust
method shares its name with the field). -/
def set_column (b : IvfPQIndexBuilder) (column : String) : IvfPQIndexBuilder :=
  { b with column := some column }

/-- The `index_name` setter. -/
def set_index_name (b : IvfPQIndexBuilder) (index_name : String) : IvfPQIndexBuilder :=
  { b with index_name := some index_name }

/-- The `metric_type` setter. -/
def set_metric_type (b : IvfPQIndexBuilder) (metric_type : MetricType) : IvfPQIndexBuilder :=
  { b with metric_type := some metric_type }

/-- The `ivf_params` setter. -/
def set_ivf_params (b : IvfPQIndexBuilder) (ivf_params : IvfBuildParams) : IvfPQIndexBuilder :=
  { b with ivf_params := some ivf_params }

/-- The `pq_params` setter. -/
def set_pq_params (b : IvfPQIndexBuilder) (pq_params : PQBuildParams) : IvfPQIndexBuilder :=
  { b with pq_params := some pq_params }

/-- The `replace` setter. -/
def set_replace (b : IvfPQIndexBuilder) (replace : Bool) : IvfPQIndexBuilder :=
  { b with replace := replace }

/-- `VectorIndexBuilder::get_column` for `IvfPQIndexBuilder`:
`self.column.clone()`. -/
def get_column (b : IvfPQIndexBuilder) : Option String :=
  b.column

/-- `VectorIndexBuilder::get_index_name` for `IvfPQIndexBuilder`:
`self.index_name.clone()`. -/
def get_index_name (b : IvfPQIndexBuilder) : Option String :=
  b.index_name

/-- `VectorIndexBuilder::get_replace` for `IvfPQIndexBuilder`:
`self.replace`. -/
def get_replace (b : IvfPQIndexBuilder) : Bool :=
  b.replace

/-- `VectorIndexBuilder::build` for `IvfPQIndexBuilder`: resolve each stage
record to its default when absent and assemble the pipeline, with the
overall metric type taken from the resolved PQ record. -/
def build (b : IvfPQIndexBuilder) : VectorIndexParams :=
  let ivf_params := b.ivf_params.getD IvfBuildParams.default
  let pq_params := b.pq_params.getD PQBuildParams.default
  VectorIndexParams.with_ivf_pq_params pq_params.metric_type ivf_params pq_params

/-- `build` as an explicit state transformer: the method takes the builder
by shared reference (`&self`), so the post-state is returned alongside the
pipeline; the body only reads fields of `self` and writes none. -/
def build_call (b : IvfPQIndexBuilder) : IvfPQIndexBuilder × VectorIndexParams :=
  let ivf_params := b.ivf_params.getD IvfBuildParams.default
  let pq_params := b.pq_params.getD PQBuildParams.default
  (b, VectorIndexParams.with_ivf_pq_params pq_params.metric_type ivf_params pq_params)

end IvfPQIndexBuilder

end VectorDB

namespace VectorDB

open IvfPQIndexBuilder

/-- C1: for every builder state, the overall metric type of the pipeline
returned by `build()` equals the metric type field of the resolved PQ
record (the supplied `pq_params` if set, otherwise the PQ default record),
and the value stored by the builder's own `metric_type` setter does not
propagate into the resolved pipeline. -/
theorem metric_type_from_pq_not_setter (b : IvfPQIndexBuilder) :
    (b.build).metric_type = (b.pq_params.getD PQBuildParams.default).metric_type ∧
    ∀ m : MetricType, (b.set_metric_type m).build = b.build := by
  exact ⟨rfl, fun m => rfl⟩

/-- C2: for every builder state, `build()` returns (it is a total function)
a pipeline of exactly two stages in fixed order: an IVF stage first, then a
PQ stage. -/
theorem build_total_two_stages (b : IvfPQIndexBuilder) :
    (b.build).stages.length = 2 ∧
    ∃ ivf pq, (b.build).stages = [StageParams.Ivf ivf, StageParams.PQ pq] := by
  exact ⟨rfl, _, _, rfl⟩

/-- C3: for a freshly constructed builder, `build()` yields exactly two
stages: stage 1 an IVF stage whose fields all equal the IVF default record,
stage 2 a PQ stage whose fields all equal the PQ default record, whose
optimized-PQ flag is false. -/
theorem new_build_defaults :
    (IvfPQIndexBuilder.new.build).stages =
      [StageParams.Ivf IvfBuildParams.default, StageParams.PQ PQBuildParams.default] ∧
    PQBuildParams.default.use_opq = false := by
  exact ⟨rfl, rfl⟩

/-- C4: for every supplied IVF record A and PQ record B, setting
`ivf_params` to A and `pq_params` to B and then calling `build()` yields a
pipeline whose IVF stage is exactly A and whose PQ stage is exactly B,
passed through unchanged. -/
theorem override_passthrough (b : IvfPQIndexBuilder)
    (A : IvfBuildParams) (B : PQBuildParams) :
    ((b.set_ivf_params A).set_pq_params B).build =
      { metric_type := B.metric_type,
        stages := [StageParams.Ivf A, StageParams.PQ B] } := by
  rfl

/-- C5: `column`, `index_name` and `metric_type` round-trip unchanged
through getters: after the setter, `get_column`/`get_index_name` return
`some` of the stored value, and the stored `metric_type` field (read
directly, as the repository's own test does: the trait exposes no
`get_metric_type` method) holds `some` of the set value. -/
theorem getters_round_trip (b : IvfPQIndexBuilder)
    (s t : String) (m : MetricType) :
    (b.set_column s).get_column = some s ∧
    (b.set_index_name t).get_index_name = some t ∧
    (b.set_metric_type m).metric_type = some m := by
  exact ⟨rfl, rfl, rfl⟩

/-- C6: `build()` is idempotent and pure in the builder's fields: two
consecutive calls with no intervening mutation (the second call runs on the
post-state of the first) produce structurally equal pipelines. -/
theorem build_idempotent (b : IvfPQIndexBuilder) :
    ((b.build_call).1.build_call).2 = (b.build_call).2 ∧
    (b.build_call).2 = b.build := by
  exact ⟨rfl, rfl⟩

/-- C7: `build()` does not mutate the builder's state: the post-state of a
`build` call equals the pre-state field-for-field, so `get_column`,
`get_index_name` and `get_replace` return the same values before and
after. -/
theorem build_frame (b : IvfPQIndexBuilder) :
    (b.build_call).1 = b ∧
    (b.build_call).1.get_column = b.get_column ∧
    (b.build_call).1.get_index_name = b.get_index_name ∧
    (b.build_call).1.get_replace = b.get_replace := by
  exact ⟨rfl, rfl, rfl, rfl⟩

/-- C8: a builder produced by `new()` has `column`, `index_name`,
`metric_type`, `ivf_params` and `pq_params` all absent and `replace` true,
so `get_column` and `get_index_name` return `none` and `get_replace`
returns true; after `set_replace false`, `get_replace` returns false. -/
theorem new_defaults_replace :
    IvfPQIndexBuilder.new.column = none ∧
    IvfPQIndexBuilder.new.index_name = none ∧
    IvfPQIndexBuilder.new.metric_type = none ∧
    IvfPQIndexBuilder.new.ivf_params = none ∧
    IvfPQIndexBuilder.new.pq_params = none ∧
    IvfPQIndexBuilder.new.replace = true ∧
    IvfPQIndexBuilder.new.get_column = none ∧
    IvfPQIndexBuilder.new.get_index_name = none ∧
    IvfPQIndexBuilder.new.get_replace = true ∧
    (IvfPQIndexBuilder.new.set_replace false).get_replace = false := by
  exact ⟨rfl, rfl, rfl, rfl, rfl, rfl, rfl, rfl, rfl, rfl⟩

/-- C9: every setter is last-write-wins with whole-record replacement:
setting a field twice leaves exactly the second value, and for the stage
records the built pipeline's stage equals the second record, never a merge
of the two. -/
theorem setters_last_write_wins (b : IvfPQIndexBuilder)
    (A B : IvfBuildParams) (P Q : PQBuildParams)
    (s t : String) (m n : MetricType) (r r' : Bool) :
    ((b.set_ivf_params A).set_ivf_params B).ivf_params = some B ∧
    (((b.set_ivf_params A).set_ivf_params B).build).stages.head? =
      some (StageParams.Ivf B) ∧
    ((b.set_pq_params P).set_pq_params Q).pq_params = some Q ∧
    (((b.set_pq_params P).set_pq_params Q).build).stages.getLast? =
      some (StageParams.PQ Q) ∧
    ((b.set_column s).set_column t).get_column = some t ∧
    ((b.set_index_name s).set_index_name t).get_index_name = some t ∧
    ((b.set_metric_type m).set_metric_type n).metric_type = some n ∧
    ((b.set_replace r).set_replace r').get_replace = r' := by
  exact ⟨rfl, rfl, rfl, rfl, rfl, rfl, rfl, rfl⟩

/-- C10: the result of `build()` depends only on the `ivf_params` and
`pq_params` fields: any two builder states agreeing on those two fields,
however they differ in `column`, `index_name`, `metric_type` and `replace`,
build equal pipelines. -/
theorem build_depends_only_on_stage_params (b₁ b₂ : IvfPQIndexBuilder)
    (hivf : b₁.ivf_params = b₂.ivf_params)
    (hpq : b₁.pq_params = b₂.pq_params) :
    b₁.build = b₂.build := by
  unfold IvfPQIndexBuilder.build
  rw [hivf, hpq]

/-- Witness for C10 at concrete inputs: two builders sharing stage records
but differing in column, index name, metric type and replace flag build the
same pipeline. -/
theorem build_depends_only_on_stage_params_witness :
    IvfPQIndexBuilder.build
        { column := none, index_name := none, metric_type := none,
          ivf_params := some (IvfBuildParams.new 500), pq_params := none,
          replace := true } =
      IvfPQIndexBuilder.build
        { column := some "c", index_name := some "index",
          metric_type := some MetricType.cosine,
          ivf_params := some (IvfBuildParams.new 500), pq_params := none,
          replace := false } :=
  build_depends_only_on_stage_params
    { column := none, index_name := none, metric_type := none,
      ivf_params := some (IvfBuildParams.new 500), pq_params := none,
      replace := true }
    { column := some "c", index_name := some "index",
      metric_type := some MetricType.cosine,
      ivf_params := some (IvfBuildParams.new 500), pq_params := none,
      replace := false }
    rfl rfl

end VectorDB
